import Mathlib

/-!
Verification of the jinhak2025 attendance-registration backend (`app.py`).

The service is a set of stateless HTTP handlers over a database reached
either by a direct Postgres connection (when the environment variable
`DATABASE_URL` is truthy) or by a Supabase REST client (constructed at
startup only when `SUPABASE_URL` and `SUPABASE_KEY` are truthy and
`DATABASE_URL` is not).

The embedding below models:
  - JSON values as an inductive type `Json`;
  - the environment as a record of three optional strings, with Python
    truthiness (`None` and the empty string are falsy);
  - the database as an explicit state (`DbState`) of attendee rows and
    notice rows;
  - the outcome of the external database round trip as an oracle value
    (`PgOutcome` for the psycopg2 path, `SbOutcome` for the REST path),
    since connection failures and constraint violations are decided by
    the external system;
  - each handler as a function from environment, request body, database
    state and oracles to an HTTP response (status code and JSON body)
    together with the resulting database state.
-/

namespace Jinhak

/-- JSON values, as delivered by Flask `request.json` and produced by
`jsonify`. -/
inductive Json where
  | null : Json
  | str (s : String) : Json
  | num (n : Int) : Json
  | bool (b : Bool) : Json
  | arr (xs : List Json) : Json
  | obj (fields : List (String × Json)) : Json

/-- Process environment: `os.environ.get` yields `None` (here `none`) for an
unset variable and the raw string otherwise. -/
structure Env where
  DATABASE_URL : Option String
  SUPABASE_URL : Option String
  SUPABASE_KEY : Option String

/-- Python truthiness of an optional string: `None` and `""` are falsy,
every other string is truthy. This is the test applied by
`if DATABASE_URL:` and by the client-construction condition in `app.py`. -/
def truthy : Option String → Bool
  | none => false
  | some s => !(s == "")

/-- Whether the module-level Supabase REST client is constructed at startup
(`app.py` line 33): `if SUPABASE_URL and SUPABASE_KEY and not DATABASE_URL`.
`true` models a non-`None` client. -/
def supabase (env : Env) : Bool :=
  truthy env.SUPABASE_URL && truthy env.SUPABASE_KEY && !truthy env.DATABASE_URL

/-- A request body: a JSON object, as the association list of its fields. -/
abbrev Body := List (String × Json)

/-- Python `data.get(f)` on a parsed JSON body: `None` when the key is
absent, and also `None` when the value is JSON `null` (Flask parses JSON
`null` to Python `None`). -/
def jget (data : Body) (k : String) : Option Json :=
  match data.find? (fun p => p.1 == k) with
  | none => none
  | some (_, Json.null) => none
  | some (_, v) => some v

/-- The validation test `data.get(f) in (None, "")` from `add_attendee`:
true exactly when the value is Python `None` or the empty string. -/
def requiredMissing : Option Json → Bool
  | none => true
  | some (Json.str "") => true
  | some _ => false

/-- The row written by the parameterized INSERT in `add_attendee`: one value
per column, `none` modelling SQL NULL for an absent optional field. -/
structure AttendeeRow where
  name : Option Json
  grade : Option Json
  class_ : Option Json
  number : Option Json
  student_phone : Option Json
  parent_phone : Option Json
  attendance_type : Option Json
  extra_notes : Option Json

/-- A row of the `notices` table: columns selected by `get_notices`.
`created_at` is an abstract timestamp; `none` models SQL NULL. -/
structure NoticeRow where
  id : Int
  title : String
  content : String
  pinned : Bool
  created_at : Option Nat

/-- The durable database state. -/
structure DbState where
  attendees : List AttendeeRow
  notices : List NoticeRow

/-- Outcome of the psycopg2 round trip for one request: either every
statement succeeds (carrying the id returned by `RETURNING id`, unused by
read-only paths), or some step raises an exception with message `msg`. -/
inductive PgOutcome where
  | ok (newId : Int) : PgOutcome
  | exn (msg : String) : PgOutcome

/-- Outcome of the Supabase REST round trip for one request: success, a
`postgrest.exceptions.APIError` carrying `e.args[0]`, or any other
exception with message `msg`. -/
inductive SbOutcome where
  | ok : SbOutcome
  | apiError (msg : String) : SbOutcome
  | exn (msg : String) : SbOutcome

/-- An HTTP response: status code and JSON body. Flask defaults to 200 when
a handler returns a body without an explicit code. -/
abbrev Resp := Nat × Json

/-- GET `/health/db`: in direct mode run `SELECT 1`, in REST mode select one
`id` from `notices` (the reported `rows` is the length of that result),
otherwise report missing configuration; any exception yields 500 with the
message as `detail`. -/
def health_db (env : Env) (db : DbState) (pg : PgOutcome) (sb : SbOutcome) :
    Resp × DbState :=
  if truthy env.DATABASE_URL then
    match pg with
    | .ok _ =>
        ((200, Json.obj [("db", .str "ok"), ("mode", .str "psycopg2")]), db)
    | .exn m =>
        ((500, Json.obj [("db", .str "error"), ("detail", .str m)]), db)
  else if supabase env then
    match sb with
    | .ok =>
        ((200, Json.obj [("db", .str "ok"), ("mode", .str "supabase-py"),
          ("rows", .num ((db.notices.take 1).length : Int))]), db)
    | .apiError m =>
        ((500, Json.obj [("db", .str "error"), ("detail", .str m)]), db)
    | .exn m =>
        ((500, Json.obj [("db", .str "error"), ("detail", .str m)]), db)
  else
    ((500, Json.obj [("db", .str "error"), ("detail", .str "No DB config found")]), db)

/-- The required-field list of `add_attendee`, in source order. -/
def required : List String :=
  ["name", "grade", "class", "number", "parent_phone", "attendance_type"]

/-- The validation loop of `add_attendee`: the first required field whose
value is missing or empty, if any (the loop returns on the first hit). -/
def firstMissing (data : Body) : Option String :=
  required.find? (fun f => requiredMissing (jget data f))

/-- The attendee row built from a request body, column by column as in the
INSERT parameter tuple of `add_attendee`. -/
def rowOf (data : Body) : AttendeeRow :=
  { name := jget data "name"
    grade := jget data "grade"
    class_ := jget data "class"
    number := jget data "number"
    student_phone := jget data "student_phone"
    parent_phone := jget data "parent_phone"
    attendance_type := jget data "attendance_type"
    extra_notes := jget data "extra_notes" }

/-- POST `/attendees`: validate required fields, then insert one attendee
row through the backend selected by the environment; map persistence
failures to error payloads exactly as the source does (500 with `detail`
in direct mode; 400 with `detail` for a REST `APIError`, 500 with `detail`
for any other exception in REST mode; 500 `No DB config found` when no
backend is configured). -/
def add_attendee (env : Env) (data : Body) (db : DbState)
    (pg : PgOutcome) (sb : SbOutcome) : Resp × DbState :=
  match firstMissing data with
  | some f =>
      ((400, Json.obj [("status", .str "error"),
        ("message", .str (f ++ " is required"))]), db)
  | none =>
    if truthy env.DATABASE_URL then
      match pg with
      | .ok newId =>
          ((200, Json.obj [("status", .str "ok"), ("id", .num newId)]),
           { db with attendees := db.attendees ++ [rowOf data] })
      | .exn m =>
          ((500, Json.obj [("status", .str "error"), ("detail", .str m)]), db)
    else if supabase env then
      match sb with
      | .ok =>
          ((200, Json.obj [("status", .str "ok")]),
           { db with attendees := db.attendees ++ [rowOf data] })
      | .apiError m =>
          ((400, Json.obj [("status", .str "error"), ("detail", .str m)]), db)
      | .exn m =>
          ((500, Json.obj [("status", .str "error"), ("detail", .str m)]), db)
    else
      ((500, Json.obj [("status", .str "error"),
        ("message", .str "No DB config found")]), db)

/-- Postgres `created_at DESC`: under DESC, SQL NULLs sort first by default,
so `none` counts as largest. `createdGE a b` holds when `a` may precede `b`
in descending order. -/
def createdGE (a b : Option Nat) : Bool :=
  match a, b with
  | none, _ => true
  | some _, none => false
  | some x, some y => decide (y ≤ x)

/-- The ordering `ORDER BY pinned DESC, created_at DESC` used by both
notice queries: `a` may come before `b` when `a` is pinned and `b` is not,
or both have the same pin status and `a` is no older than `b`. -/
def noticeBefore (a b : NoticeRow) : Bool :=
  (a.pinned && !b.pinned) ||
    (a.pinned == b.pinned && createdGE a.created_at b.created_at)

/-- `noticeBefore` as a relation, for use with the sorting library. -/
def noticeRel (a b : NoticeRow) : Prop := noticeBefore a b = true

instance : DecidableRel noticeRel :=
  fun a b => inferInstanceAs (Decidable (noticeBefore a b = true))

/-- The result set of the notice query: the stored notices ordered by
pinned descending then creation time descending. -/
def orderByPinnedCreated (l : List NoticeRow) : List NoticeRow :=
  List.insertionSort noticeRel l

/-- Timestamp rendering (`created_at.isoformat()`), modelled as an abstract
injective rendering of the timestamp. -/
def isoformat (t : Nat) : String := toString t

/-- One notice serialized for the response, as in `get_notices`:
`r[4].isoformat() if r[4] else None` (a datetime is always truthy in
Python, so the test distinguishes exactly NULL). -/
def noticeToJson (r : NoticeRow) : Json :=
  Json.obj [("id", .num r.id), ("title", .str r.title),
    ("content", .str r.content), ("pinned", .bool r.pinned),
    ("created_at",
      match r.created_at with
      | some t => .str (isoformat t)
      | none => .null)]

/-- GET `/notices`: read all notices ordered pinned-desc then
created-at-desc through the selected backend; errors are mapped exactly as
in `add_attendee`'s backend branches. -/
def get_notices (env : Env) (db : DbState) (pg : PgOutcome) (sb : SbOutcome) :
    Resp × DbState :=
  if truthy env.DATABASE_URL then
    match pg with
    | .ok _ =>
        ((200, Json.arr ((orderByPinnedCreated db.notices).map noticeToJson)), db)
    | .exn m =>
        ((500, Json.obj [("status", .str "error"), ("detail", .str m)]), db)
  else if supabase env then
    match sb with
    | .ok =>
        ((200, Json.arr ((orderByPinnedCreated db.notices).map noticeToJson)), db)
    | .apiError m =>
        ((400, Json.obj [("status", .str "error"), ("detail", .str m)]), db)
    | .exn m =>
        ((500, Json.obj [("status", .str "error"), ("detail", .str m)]), db)
  else
    ((500, Json.obj [("status", .str "error"),
      ("message", .str "No DB config found")]), db)

/-- Structural equality of JSON values (Python `==` on parsed JSON). -/
def beqJson : Json → Json → Bool
  | .null, .null => true
  | .str a, .str b => a == b
  | .num a, .num b => a == b
  | .bool a, .bool b => a == b
  | .arr [], .arr [] => true
  | .arr (x :: xs), .arr (y :: ys) => beqJson x y && beqJson (.arr xs) (.arr ys)
  | .obj [], .obj [] => true
  | .obj ((k, v) :: xs), .obj ((l, w) :: ys) =>
      k == l && beqJson v w && beqJson (.obj xs) (.obj ys)
  | _, _ => false

/-- A check-in record: a student identifier and whether that attendee has
been marked present. -/
structure CheckinRec where
  student_id : Json
  checked_in : Bool

/-- Modelled from the spec: the POST `/checkin` handler lives in repository
variants that are not under `src/` (spec section 4.2, section 6 and error
taxonomy section 7). Update-based variant: the body carries `student_id`;
a missing identifier is a client error (400 with the field named); the
attendee row matched by the identifier is marked checked in (200), a
nonexistent identifier yields 404, and a storage error yields 500; every
response body is `status` of `ok` or `error` together with a `message`. -/
def checkin (data : Body) (recs : List CheckinRec) (pg : PgOutcome) :
    Resp × List CheckinRec :=
  match jget data "student_id" with
  | none =>
      ((400, Json.obj [("status", .str "error"),
        ("message", .str "student_id is required")]), recs)
  | some sid =>
    match pg with
    | .exn m =>
        ((500, Json.obj [("status", .str "error"), ("message", .str m)]), recs)
    | .ok _ =>
      if recs.any (fun r => beqJson r.student_id sid) then
        ((200, Json.obj [("status", .str "ok"),
          ("message", .str "checked in")]),
         recs.map (fun r =>
           if beqJson r.student_id sid then { r with checked_in := true } else r))
      else
        ((404, Json.obj [("status", .str "error"),
          ("message", .str "attendee not found")]), recs)

/-! Concrete configurations, bodies and states used to instantiate the
theorems below. -/

/-- No backend configured. -/
def envNone : Env := ⟨none, none, none⟩

/-- Direct-connection (psycopg2) mode. -/
def envDirect : Env := ⟨some "postgresql://db.example/jinhak", none, none⟩

/-- REST (supabase-py) mode. -/
def envRest : Env := ⟨none, some "https://example.supabase.co", some "anon-key"⟩

/-- `DATABASE_URL` set in the environment, but to the empty string, with
both REST variables set non-empty. -/
def envEmptyUrl : Env := ⟨some "", some "https://example.supabase.co", some "anon-key"⟩

/-- The empty database. -/
def db0 : DbState := ⟨[], []⟩

/-- A complete valid submission (the example of the spec). -/
def dataFull : Body :=
  [("name", .str "Kim"), ("grade", .str "2"), ("class", .str "3"),
   ("number", .str "15"), ("parent_phone", .str "010-1111-2222"),
   ("attendance_type", .str "offline")]

/-- A submission missing exactly the `name` field. -/
def dataNoName : Body :=
  [("grade", .str "2"), ("class", .str "3"), ("number", .str "15"),
   ("parent_phone", .str "010-1111-2222"), ("attendance_type", .str "offline")]

/-- An unpinned notice created at time 5. -/
def n1 : NoticeRow := ⟨1, "plain", "body one", false, some 5⟩

/-- A pinned notice created at time 3. -/
def n2 : NoticeRow := ⟨2, "pinned", "body two", true, some 3⟩

/-- A database holding the two sample notices, unpinned first. -/
def dbNotices : DbState := ⟨[], [n1, n2]⟩

/-- One unchecked check-in record. -/
def recs1 : List CheckinRec := [⟨Json.str "s1", false⟩]

/-- C1: a POST /attendees request whose body misses exactly one required
field (absent, JSON null, or the empty string) is answered with HTTP 400
and the body `status error`, `message "<field> is required"` naming that
field, with the database untouched. -/
theorem add_attendee_missing_field_named (env : Env) (data : Body)
    (db : DbState) (pg : PgOutcome) (sb : SbOutcome) (f : String)
    (hf : f ∈ required)
    (hmiss : requiredMissing (jget data f) = true)
    (hothers : ∀ g ∈ required, g ≠ f → requiredMissing (jget data g) = false) :
    add_attendee env data db pg sb =
      ((400, Json.obj [("status", .str "error"),
        ("message", .str (f ++ " is required"))]), db) := by
  have hfm : firstMissing data = some f := by
    simp only [required, List.mem_cons, List.not_mem_nil, or_false] at hf
    have hx : ∀ g : String, g ∈ required → g ≠ f →
        requiredMissing (jget data g) = false := hothers
    rcases hf with rfl | rfl | rfl | rfl | rfl | rfl <;>
      simp only [firstMissing, required, List.find?] <;>
      simp [hmiss,
        hx "name" (by simp [required]),
        hx "grade" (by simp [required]),
        hx "class" (by simp [required]),
        hx "number" (by simp [required]),
        hx "parent_phone" (by simp [required]),
        hx "attendance_type" (by simp [required])]
  simp [add_attendee, hfm]

/-- Witness for C1: the sample body lacking only `name` is rejected with
400 and `name is required`. -/
theorem add_attendee_missing_field_named_witness :
    ("name" ∈ required ∧ requiredMissing (jget dataNoName "name") = true ∧
      (∀ g ∈ required, g ≠ "name" → requiredMissing (jget dataNoName g) = false)) ∧
    add_attendee envNone dataNoName db0 (.ok 1) .ok =
      ((400, Json.obj [("status", .str "error"),
        ("message", .str "name is required")]), db0) :=
  ⟨⟨by decide, by decide, by decide⟩,
   add_attendee_missing_field_named envNone dataNoName db0 (.ok 1) .ok "name"
     (by decide) (by decide) (by decide)⟩

/-- C9: when required-field validation fails, the handler answers 400
immediately: the database state is returned unchanged and the result does
not depend on either backend oracle, so no connection or insert happens. -/
theorem add_attendee_invalid_no_db_effect (env : Env) (data : Body)
    (db : DbState) (pg : PgOutcome) (sb : SbOutcome) (f : String)
    (h : firstMissing data = some f) :
    add_attendee env data db pg sb =
      ((400, Json.obj [("status", .str "error"),
        ("message", .str (f ++ " is required"))]), db) ∧
    (∀ pg' sb', add_attendee env data db pg' sb' =
      add_attendee env data db pg sb) := by
  constructor
  · simp [add_attendee, h]
  · intro pg' sb'
    simp [add_attendee, h]

/-- Witness for C9: an empty body fails validation on `name`; the state is
unchanged and the oracles are irrelevant. -/
theorem add_attendee_invalid_no_db_effect_witness :
    firstMissing ([] : Body) = some "name" ∧
    (add_attendee envDirect [] db0 (.exn "connection refused") .ok =
        ((400, Json.obj [("status", .str "error"),
          ("message", .str "name is required")]), db0) ∧
      (∀ pg' sb', add_attendee envDirect [] db0 pg' sb' =
        add_attendee envDirect [] db0 (.exn "connection refused") .ok)) :=
  ⟨rfl, add_attendee_invalid_no_db_effect envDirect [] db0
    (.exn "connection refused") .ok "name" rfl⟩

/-- C7: the health probe never mutates stored state: for every
configuration, database state and backend outcome, the state after the
request equals the state before it. -/
theorem health_db_preserves_state (env : Env) (db : DbState)
    (pg : PgOutcome) (sb : SbOutcome) :
    (health_db env db pg sb).2 = db := by
  cases pg <;> cases sb <;> simp only [health_db] <;> split_ifs <;> rfl

/-- C6: with a database configured, the health probe answers 200 with
`db ok` when the probe query succeeds, and 500 with `db error` and the
raw exception message as `detail` when the query raises, in both backend
modes. -/
theorem health_db_probe_report (env : Env) (db : DbState) :
    (truthy env.DATABASE_URL = true →
      (∀ i sb, health_db env db (.ok i) sb =
        ((200, Json.obj [("db", .str "ok"), ("mode", .str "psycopg2")]), db)) ∧
      (∀ m sb, health_db env db (.exn m) sb =
        ((500, Json.obj [("db", .str "error"), ("detail", .str m)]), db))) ∧
    (truthy env.DATABASE_URL = false → supabase env = true →
      (∀ pg, health_db env db pg .ok =
        ((200, Json.obj [("db", .str "ok"), ("mode", .str "supabase-py"),
          ("rows", .num ((db.notices.take 1).length : Int))]), db)) ∧
      (∀ m pg, health_db env db pg (.apiError m) =
        ((500, Json.obj [("db", .str "error"), ("detail", .str m)]), db)) ∧
      (∀ m pg, health_db env db pg (.exn m) =
        ((500, Json.obj [("db", .str "error"), ("detail", .str m)]), db))) := by
  constructor
  · intro h
    refine ⟨fun i sb => ?_, fun m sb => ?_⟩ <;> simp [health_db, h]
  · intro h hs
    refine ⟨fun pg => ?_, fun m pg => ?_, fun m pg => ?_⟩ <;>
      cases pg <;> simp [health_db, h, hs]

/-- Witness for C6: in direct mode a successful probe gives 200 `db ok`,
and a raised exception gives 500 `db error` with the message attached. -/
theorem health_db_probe_report_witness :
    truthy envDirect.DATABASE_URL = true ∧
    health_db envDirect db0 (.ok 1) .ok =
      ((200, Json.obj [("db", .str "ok"), ("mode", .str "psycopg2")]), db0) ∧
    health_db envDirect db0 (.exn "could not connect to server") .ok =
      ((500, Json.obj [("db", .str "error"),
        ("detail", .str "could not connect to server")]), db0) :=
  ⟨by decide,
   ((health_db_probe_report envDirect db0).1 (by decide)).1 1 .ok,
   ((health_db_probe_report envDirect db0).1 (by decide)).2
     "could not connect to server" .ok⟩

/-- C8 counterexample: with no backend configured, a POST /attendees whose
body fails validation is answered 400 `name is required`, not 500 with
`No DB config found` as the claim states for every request. -/
theorem noconfig_attendees_not_500 :
    truthy envNone.DATABASE_URL = false ∧ supabase envNone = false ∧
    (add_attendee envNone [] db0 (.ok 1) .ok).1 =
      (400, Json.obj [("status", .str "error"),
        ("message", .str "name is required")]) ∧
    (add_attendee envNone [] db0 (.ok 1) .ok).1.1 ≠ 500 :=
  ⟨rfl, rfl, rfl, by decide⟩

/-- C8 amended: with no backend configured, GET /health/db and GET /notices
always answer 500 reporting `No DB config found`, and POST /attendees does
so whenever required-field validation passes. -/
theorem noconfig_reports_500 (env : Env) (db : DbState) (data : Body)
    (pg : PgOutcome) (sb : SbOutcome)
    (hd : truthy env.DATABASE_URL = false) (hs : supabase env = false) :
    health_db env db pg sb =
      ((500, Json.obj [("db", .str "error"),
        ("detail", .str "No DB config found")]), db) ∧
    get_notices env db pg sb =
      ((500, Json.obj [("status", .str "error"),
        ("message", .str "No DB config found")]), db) ∧
    (firstMissing data = none →
      add_attendee env data db pg sb =
        ((500, Json.obj [("status", .str "error"),
          ("message", .str "No DB config found")]), db)) := by
  refine ⟨?_, ?_, fun hv => ?_⟩
  · simp [health_db, hd, hs]
  · simp [get_notices, hd, hs]
  · simp [add_attendee, hd, hs, hv]

/-- Witness for C8 amended: with nothing configured, the health probe, the
notice listing and a valid submission each answer 500 `No DB config
found`. -/
theorem noconfig_reports_500_witness :
    (truthy envNone.DATABASE_URL = false ∧ supabase envNone = false ∧
      firstMissing dataFull = none) ∧
    (health_db envNone db0 (.ok 1) .ok =
        ((500, Json.obj [("db", .str "error"),
          ("detail", .str "No DB config found")]), db0) ∧
      get_notices envNone db0 (.ok 1) .ok =
        ((500, Json.obj [("status", .str "error"),
          ("message", .str "No DB config found")]), db0) ∧
      (firstMissing dataFull = none →
        add_attendee envNone dataFull db0 (.ok 1) .ok =
          ((500, Json.obj [("status", .str "error"),
            ("message", .str "No DB config found")]), db0))) :=
  ⟨⟨rfl, rfl, rfl⟩,
   noconfig_reports_500 envNone db0 dataFull (.ok 1) .ok rfl rfl⟩

/-- C3 counterexample: in REST mode a valid submission whose insert raises
a PostgREST `APIError` is answered with HTTP 400 — a client error, not a
server error — with the raw message as `detail`. -/
theorem rest_api_error_is_400 :
    firstMissing dataFull = none ∧ supabase envRest = true ∧
    (add_attendee envRest dataFull db0 (.ok 1)
        (.apiError "duplicate key value violates unique constraint")).1 =
      (400, Json.obj [("status", .str "error"),
        ("detail", .str "duplicate key value violates unique constraint")]) ∧
    ¬ (500 ≤ (add_attendee envRest dataFull db0 (.ok 1)
        (.apiError "duplicate key value violates unique constraint")).1.1) :=
  ⟨rfl, rfl, rfl, by decide⟩

/-- C3 amended: for a request passing validation, every persistence error
is surfaced with the raw message as `detail` and no redaction: with HTTP
500 in direct-connection mode and for non-`APIError` failures in REST
mode, but with HTTP 400 for a REST-layer `APIError`. -/
theorem add_attendee_persistence_error_surfaced (env : Env) (data : Body)
    (db : DbState) (m : String) (hv : firstMissing data = none) :
    (truthy env.DATABASE_URL = true →
      ∀ sb, add_attendee env data db (.exn m) sb =
        ((500, Json.obj [("status", .str "error"), ("detail", .str m)]), db)) ∧
    (truthy env.DATABASE_URL = false → supabase env = true →
      (∀ pg, add_attendee env data db pg (.apiError m) =
        ((400, Json.obj [("status", .str "error"), ("detail", .str m)]), db)) ∧
      (∀ pg, add_attendee env data db pg (.exn m) =
        ((500, Json.obj [("status", .str "error"), ("detail", .str m)]), db))) := by
  constructor
  · intro h sb
    simp [add_attendee, hv, h]
  · intro h hs
    refine ⟨fun pg => ?_, fun pg => ?_⟩ <;> simp [add_attendee, hv, h, hs]

/-- Witness for C3 amended: a direct-mode insert failure is answered 500
with the raw message, and a REST-mode `APIError` is answered 400 with the
raw message. -/
theorem add_attendee_persistence_error_surfaced_witness :
    (firstMissing dataFull = none ∧ truthy envDirect.DATABASE_URL = true ∧
      truthy envRest.DATABASE_URL = false ∧ supabase envRest = true) ∧
    add_attendee envDirect dataFull db0 (.exn "server closed the connection") .ok =
      ((500, Json.obj [("status", .str "error"),
        ("detail", .str "server closed the connection")]), db0) ∧
    add_attendee envRest dataFull db0 (.ok 1)
        (.apiError "server closed the connection") =
      ((400, Json.obj [("status", .str "error"),
        ("detail", .str "server closed the connection")]), db0) :=
  ⟨⟨rfl, rfl, rfl, rfl⟩,
   (add_attendee_persistence_error_surfaced envDirect dataFull db0
      "server closed the connection" rfl).1 rfl .ok,
   ((add_attendee_persistence_error_surfaced envRest dataFull db0
      "server closed the connection" rfl).2 rfl rfl).1 (.ok 1)⟩

/-- C5: a submission with all six required fields non-missing and
non-empty is answered with a success payload — `status ok` with the new id
in direct mode, `status ok` alone in REST mode — and appends exactly one
attendee row whose eight columns are the submitted values verbatim, `none`
(SQL NULL) for an absent optional field. -/
theorem add_attendee_valid_inserts_row (env : Env) (data : Body)
    (db : DbState) (newId : Int)
    (hval : ∀ f ∈ required, requiredMissing (jget data f) = false) :
    (truthy env.DATABASE_URL = true →
      ∀ sb, add_attendee env data db (.ok newId) sb =
        ((200, Json.obj [("status", .str "ok"), ("id", .num newId)]),
         { db with attendees := db.attendees ++
            [{ name := jget data "name", grade := jget data "grade",
               class_ := jget data "class", number := jget data "number",
               student_phone := jget data "student_phone",
               parent_phone := jget data "parent_phone",
               attendance_type := jget data "attendance_type",
               extra_notes := jget data "extra_notes" }] })) ∧
    (truthy env.DATABASE_URL = false → supabase env = true →
      ∀ pg, add_attendee env data db pg .ok =
        ((200, Json.obj [("status", .str "ok")]),
         { db with attendees := db.attendees ++
            [{ name := jget data "name", grade := jget data "grade",
               class_ := jget data "class", number := jget data "number",
               student_phone := jget data "student_phone",
               parent_phone := jget data "parent_phone",
               attendance_type := jget data "attendance_type",
               extra_notes := jget data "extra_notes" }] })) := by
  have hfm : firstMissing data = none := by
    rw [firstMissing, List.find?_eq_none]
    intro f hf
    simp [hval f hf]
  constructor
  · intro h sb
    simp [add_attendee, hfm, h, rowOf]
  · intro h hs pg
    cases pg <;> simp [add_attendee, hfm, h, hs, rowOf]

/-- Witness for C5: the spec's example submission succeeds in direct mode
with the returned id, storing its six fields verbatim and NULL optional
fields. -/
theorem add_attendee_valid_inserts_row_witness :
    ((∀ f ∈ required, requiredMissing (jget dataFull f) = false) ∧
      truthy envDirect.DATABASE_URL = true) ∧
    add_attendee envDirect dataFull db0 (.ok 7) .ok =
      ((200, Json.obj [("status", .str "ok"), ("id", .num 7)]),
       { db0 with attendees := db0.attendees ++
          [{ name := jget dataFull "name", grade := jget dataFull "grade",
             class_ := jget dataFull "class", number := jget dataFull "number",
             student_phone := jget dataFull "student_phone",
             parent_phone := jget dataFull "parent_phone",
             attendance_type := jget dataFull "attendance_type",
             extra_notes := jget dataFull "extra_notes" }] }) :=
  ⟨⟨by decide, by decide⟩,
   (add_attendee_valid_inserts_row envDirect dataFull db0 7 (by decide)).1
     (by decide) .ok⟩

/-- C2: the check-in endpoint takes a body with `student_id`; a missing
identifier is answered 400 (a client error) with the field named; every
response carries HTTP status 200, 400, 404 or 500 and a body
`status ok-or-error` with a `message`. -/
theorem checkin_contract (data : Body) (recs : List CheckinRec)
    (pg : PgOutcome) :
    (jget data "student_id" = none →
      checkin data recs pg =
        ((400, Json.obj [("status", .str "error"),
          ("message", .str "student_id is required")]), recs)) ∧
    ((checkin data recs pg).1.1 = 200 ∨ (checkin data recs pg).1.1 = 400 ∨
      (checkin data recs pg).1.1 = 404 ∨ (checkin data recs pg).1.1 = 500) ∧
    (∃ st m, (checkin data recs pg).1.2 =
        Json.obj [("status", .str st), ("message", .str m)] ∧
      (st = "ok" ∨ st = "error")) := by
  rcases h : jget data "student_id" with _ | sid
  · exact ⟨fun _ => by simp [checkin, h], Or.inr (Or.inl (by simp [checkin, h])),
      "error", "student_id is required", by simp [checkin, h], Or.inr rfl⟩
  · refine ⟨fun hc => Option.noConfusion hc, ?_, ?_⟩ <;> cases pg with
    | exn m =>
        first
        | exact Or.inr (Or.inr (Or.inr (by simp [checkin, h])))
        | exact ⟨"error", m, by simp [checkin, h], Or.inr rfl⟩
    | ok i =>
        by_cases ha : recs.any (fun r => beqJson r.student_id sid) = true
        · first
          | exact Or.inl (by simp [checkin, h, ha])
          | exact ⟨"ok", "checked in", by simp [checkin, h, ha], Or.inl rfl⟩
        · first
          | exact Or.inr (Or.inr (Or.inl (by simp [checkin, h, ha])))
          | exact ⟨"error", "attendee not found", by simp [checkin, h, ha],
              Or.inr rfl⟩

/-- Witness for C2: a body without `student_id` is rejected 400 with the
identifier named. -/
theorem checkin_contract_witness :
    jget ([] : Body) "student_id" = none ∧
    checkin [] recs1 (.ok 1) =
      ((400, Json.obj [("status", .str "error"),
        ("message", .str "student_id is required")]), recs1) :=
  ⟨rfl, (checkin_contract [] recs1 (.ok 1)).1 rfl⟩

/-- C10 counterexample: with `DATABASE_URL` set in the environment but
equal to the empty string, and both REST variables set, the REST client is
constructed and the health handler takes the REST branch (and surfaces a
REST failure even though the direct probe would succeed), contradicting
the claim that a set `DATABASE_URL` always forces the direct branch. -/
theorem database_url_set_rest_branch_used :
    (envEmptyUrl.DATABASE_URL).isSome = true ∧
    (envEmptyUrl.SUPABASE_URL).isSome = true ∧
    (envEmptyUrl.SUPABASE_KEY).isSome = true ∧
    supabase envEmptyUrl = true ∧
    (health_db envEmptyUrl db0 (.ok 1) .ok).1 =
      (200, Json.obj [("db", .str "ok"), ("mode", .str "supabase-py"),
        ("rows", .num 0)]) ∧
    (health_db envEmptyUrl db0 (.ok 1) (.exn "rest down")).1.1 = 500 :=
  ⟨rfl, rfl, rfl, rfl, rfl, rfl⟩

/-- C10 amended: a non-empty `DATABASE_URL` takes strict precedence — the
REST client is then never constructed and every handler's result is
independent of the REST oracle — and the REST branch is reachable only
when `DATABASE_URL` is unset or empty and both REST variables are set
non-empty. -/
theorem backend_mode_precedence (env : Env) :
    (truthy env.DATABASE_URL = true →
      supabase env = false ∧
      ∀ db data pg sb sb',
        health_db env db pg sb = health_db env db pg sb' ∧
        add_attendee env data db pg sb = add_attendee env data db pg sb' ∧
        get_notices env db pg sb = get_notices env db pg sb') ∧
    (supabase env = true →
      truthy env.DATABASE_URL = false ∧ truthy env.SUPABASE_URL = true ∧
        truthy env.SUPABASE_KEY = true) := by
  constructor
  · intro h
    refine ⟨by simp [supabase, h], fun db data pg sb sb' => ⟨?_, ?_, ?_⟩⟩
    · simp [health_db, h]
    · cases hf : firstMissing data <;> simp [add_attendee, h, hf]
    · simp [get_notices, h]
  · intro h
    simp only [supabase, Bool.and_eq_true, Bool.not_eq_true'] at h
    exact ⟨h.2, h.1.1, h.1.2⟩

/-- Witness for C10 amended: with a non-empty `DATABASE_URL` the client is
not constructed and the health result ignores the REST oracle; with an
empty `DATABASE_URL` and REST variables set, the client is constructed and
`DATABASE_URL` is indeed falsy. -/
theorem backend_mode_precedence_witness :
    (truthy envDirect.DATABASE_URL = true ∧ supabase envEmptyUrl = true) ∧
    supabase envDirect = false ∧
    health_db envDirect db0 (.ok 1) .ok =
      health_db envDirect db0 (.ok 1) (.exn "rest down") ∧
    truthy envEmptyUrl.DATABASE_URL = false :=
  ⟨⟨by decide, by decide⟩,
   ((backend_mode_precedence envDirect).1 (by decide)).1,
   (((backend_mode_precedence envDirect).1 (by decide)).2 db0 [] (.ok 1) .ok
     (.exn "rest down")).1,
   ((backend_mode_precedence envEmptyUrl).2 (by decide)).1⟩

/-- Descending comparison on optional timestamps is total. -/
lemma createdGE_total (a b : Option Nat) :
    createdGE a b = true ∨ createdGE b a = true := by
  cases a <;> cases b <;> simp [createdGE]
  omega

/-- Descending comparison on optional timestamps is transitive. -/
lemma createdGE_trans (a b c : Option Nat) (h1 : createdGE a b = true)
    (h2 : createdGE b c = true) : createdGE a c = true := by
  cases a <;> cases b <;> cases c <;> simp_all [createdGE]
  omega

instance : IsTotal NoticeRow noticeRel :=
  ⟨fun a b => by
    cases ha : a.pinned <;> cases hb : b.pinned <;>
      simp [noticeRel, noticeBefore, ha, hb] <;> exact createdGE_total _ _⟩

instance : IsTrans NoticeRow noticeRel :=
  ⟨fun a b c hab hbc => by
    simp only [noticeRel, noticeBefore, Bool.or_eq_true, Bool.and_eq_true,
      Bool.not_eq_true', beq_iff_eq] at hab hbc ⊢
    rcases hab with ⟨ha1, hb1⟩ | ⟨hab1, hab2⟩ <;>
      rcases hbc with ⟨hb2, hc1⟩ | ⟨hbc1, hbc2⟩
    · rw [hb1] at hb2; exact Bool.noConfusion hb2
    · left; exact ⟨ha1, hbc1 ▸ hb1⟩
    · left; refine ⟨?_, hc1⟩; rw [hab1]; exact hb2
    · right; exact ⟨hab1.trans hbc1, createdGE_trans _ _ _ hab2 hbc2⟩⟩

/-- Any pair related by the query ordering satisfies the pinned-first,
then newer-first property. -/
lemma noticeRel_imp (a b : NoticeRow) (h : noticeRel a b) :
    (b.pinned = true → a.pinned = true) ∧
    (a.pinned = b.pinned → createdGE a.created_at b.created_at = true) := by
  simp only [noticeRel, noticeBefore, Bool.or_eq_true, Bool.and_eq_true,
    Bool.not_eq_true', beq_iff_eq] at h
  rcases h with ⟨h1, h2⟩ | ⟨h1, h2⟩
  · constructor
    · intro hb; rw [hb] at h2; exact Bool.noConfusion h2
    · intro hab; rw [h1, h2] at hab; exact Bool.noConfusion hab
  · exact ⟨fun hb => h1.trans hb, fun _ => h2⟩

/-- C4: whenever GET /notices answers 200 with an array, that array is the
serialization of a permutation of the stored notices that is ordered with
every pinned notice before every unpinned one and, within a pin group, by
creation timestamp descending (SQL NULLs first, as Postgres sorts them
under DESC). -/
theorem get_notices_sorted (env : Env) (db : DbState) (pg : PgOutcome)
    (sb : SbOutcome) (l : List Json) (st : DbState)
    (h : get_notices env db pg sb = ((200, Json.arr l), st)) :
    ∃ rows : List NoticeRow, l = rows.map noticeToJson ∧
      rows.Perm db.notices ∧
      rows.Pairwise (fun a b => (b.pinned = true → a.pinned = true) ∧
        (a.pinned = b.pinned → createdGE a.created_at b.created_at = true)) := by
  have hmain : l = (orderByPinnedCreated db.notices).map noticeToJson := by
    unfold get_notices at h
    split_ifs at h <;> cases pg <;> cases sb
    all_goals
      injection h with h1 h2
      injection h1 with hcode hbody
      first
        | exact absurd hcode (by decide)
        | (injection hbody with hl; exact hl.symm)
  refine ⟨orderByPinnedCreated db.notices, hmain, ?_, ?_⟩
  · exact List.perm_insertionSort noticeRel db.notices
  · exact (List.sorted_insertionSort noticeRel db.notices).imp
      (fun hab => noticeRel_imp _ _ hab)

/-- Witness for C4: on a store holding an unpinned-then-pinned pair, the
direct-mode listing answers the pinned notice first, and the theorem
applies. -/
theorem get_notices_sorted_witness :
    get_notices envDirect dbNotices (.ok 1) .ok =
      ((200, Json.arr [noticeToJson n2, noticeToJson n1]), dbNotices) ∧
    ∃ rows : List NoticeRow,
      [noticeToJson n2, noticeToJson n1] = rows.map noticeToJson ∧
      rows.Perm dbNotices.notices ∧
      rows.Pairwise (fun a b => (b.pinned = true → a.pinned = true) ∧
        (a.pinned = b.pinned → createdGE a.created_at b.created_at = true)) :=
  ⟨rfl, get_notices_sorted envDirect dbNotices (.ok 1) .ok _ _ rfl⟩

end Jinhak
